import Mathlib

/-!
Shallow embedding of the NIV (National Impact Velocity) calculation engine
from rust-engine/src/niv.rs (the production v6 variant), over exact real
arithmetic.  Rust f64 values are modelled as real numbers; f64 powf on a
positive base is Real.rpow; f64 tanh, exp and sqrt are the corresponding
real functions.  Fallible constructs do not occur in the modelled code
(all guards return 0 instead of failing).
-/

namespace NIV

open Real

/-! ## Global parameters (module constants in niv.rs) -/

/-- Friction exponent eta (nonlinearity). -/
def ETA : ℝ := 1.5

/-- Safety floor epsilon for division-by-zero. -/
def EPSILON : ℝ := 0.001

/-- Smoothing window: 12 months. -/
def SMOOTH_WINDOW : ℕ := 12

/-- R and D / education proxy multiplier for efficiency. -/
def R_D_MULTIPLIER : ℝ := 1.15

/-- Investment growth weight in the thrust input. -/
def THRUST_DG_WEIGHT : ℝ := 1.0

/-- M2 growth weight in the thrust input. -/
def THRUST_DA_WEIGHT : ℝ := 1.0

/-- Fed funds change weight in the thrust input. -/
def THRUST_DR_WEIGHT : ℝ := 0.7

/-- Yield curve inversion penalty weight. -/
def DRAG_SPREAD_WEIGHT : ℝ := 0.4

/-- Real interest rate drag weight. -/
def DRAG_REAL_RATE_WEIGHT : ℝ := 0.4

/-- Fed funds volatility drag weight. -/
def DRAG_VOLATILITY_WEIGHT : ℝ := 0.2

/-! ## Data model -/

/-- Calendar month of an observation; chrono NaiveDate is only read through
its year and month in the modelled code, so a date is modelled as the pair. -/
structure Date where
  year : ℤ
  month : ℕ
  deriving DecidableEq, Inhabited

/-- Raw economic data point from FRED (struct EconomicData). -/
structure EconomicData where
  date : Date
  investment : ℝ
  m2_supply : ℝ
  fed_funds_rate : ℝ
  gdp : ℝ
  capacity_util : ℝ
  yield_spread : ℝ
  cpi_inflation : ℝ
  deriving Inhabited

/-- Extended economic data with growth rates calculated (struct ExtendedEconomicData). -/
structure ExtendedEconomicData where
  base : EconomicData
  dg : ℝ
  da : ℝ
  dr : ℝ
  sigma_r : ℝ
  deriving Inhabited

/-- Computed NIV components (struct NIVComponents). -/
structure NIVComponents where
  thrust : ℝ
  efficiency : ℝ
  efficiency_squared : ℝ
  slack : ℝ
  drag : ℝ
  drag_spread : ℝ
  drag_real_rate : ℝ
  drag_volatility : ℝ
  deriving Inhabited

/-- Alert levels based on recession probability (enum AlertLevel). -/
inductive AlertLevel where
  | Normal
  | Elevated
  | Warning
  | Critical
  deriving DecidableEq, Inhabited

/-- Full NIV result for a single period (struct NIVResult). -/
structure NIVResult where
  date : Date
  niv_score : ℝ
  recession_probability : ℝ
  components : NIVComponents
  alert_level : AlertLevel
  deriving Inhabited

/-- AlertLevel::from_probability: thresholds on the recession probability. -/
noncomputable def AlertLevel.from_probability (prob : ℝ) : AlertLevel :=
  if prob < 0.30 then AlertLevel.Normal
  else if prob < 0.50 then AlertLevel.Elevated
  else if prob < 0.70 then AlertLevel.Warning
  else AlertLevel.Critical

/-- Ordinal rank of an alert level, used to state monotonicity. -/
def AlertLevel.rank : AlertLevel → ℕ
  | AlertLevel.Normal => 0
  | AlertLevel.Elevated => 1
  | AlertLevel.Warning => 2
  | AlertLevel.Critical => 3

/-! ## Statistics helper (statrs) -/

/-- Arithmetic mean of a list (statrs Statistics::mean). -/
noncomputable def listMean (l : List ℝ) : ℝ := l.sum / l.length

/-- Shallow embedding of statrs Statistics::std_dev on a slice of f64: the
Bessel-corrected sample standard deviation, with divisor length - 1.  The
statrs library documents std_dev as estimating the unbiased variance from
samples (divisor N - 1); its population_std_dev (divisor N) is a distinct
method that niv.rs does not call. -/
noncomputable def std_dev (l : List ℝ) : ℝ :=
  Real.sqrt (((l.map (fun x => (x - listMean l) ^ 2)).sum) / ((l.length : ℝ) - 1))

/-- Population standard deviation (divisor N); stated from the spec wording
for comparison with std_dev, not called by the modelled code. -/
noncomputable def population_std_dev (l : List ℝ) : ℝ :=
  Real.sqrt (((l.map (fun x => (x - listMean l) ^ 2)).sum) / (l.length : ℝ))

/-! ## Engine -/

/-- NIV Calculation Engine (struct NIVEngine): eta and epsilon configuration. -/
structure NIVEngine where
  eta : ℝ
  epsilon : ℝ

/-- NIVEngine::new with the default global parameters. -/
noncomputable def NIVEngine.new : NIVEngine := ⟨ETA, EPSILON⟩

/-- NIVEngine::with_params. -/
def NIVEngine.with_params (eta epsilon : ℝ) : NIVEngine := ⟨eta, epsilon⟩

/-- NIVEngine::compute_extended_data: growth rates and rolling volatility for
each index i in 12..len.  The Rust loop index i corresponds to k + 12 below;
list index arithmetic is written with k so that natural subtraction never
truncates.  Out-of-range getD never happens for k in range (len - 12). -/
noncomputable def NIVEngine.compute_extended_data (e : NIVEngine)
    (data : List EconomicData) : List ExtendedEconomicData :=
  (List.range (data.length - 12)).map (fun k =>
    let current := data.getD (k + 12) default
    let prev_month := data.getD (k + 11) default
    let year_ago := data.getD k default
    let dg := if prev_month.investment > 0 then
        ((current.investment - prev_month.investment) / prev_month.investment) * 100
      else 0
    let da := if year_ago.m2_supply > 0 then
        ((current.m2_supply - year_ago.m2_supply) / year_ago.m2_supply) * 100
      else 0
    let dr := current.fed_funds_rate - prev_month.fed_funds_rate
    let fed_funds_window := ((data.drop (k + 1)).take 12).map EconomicData.fed_funds_rate
    let sigma_r := std_dev fed_funds_window
    { base := current, dg := dg, da := da, dr := dr, sigma_r := sigma_r })

/-- NIVEngine::compute_components: the four sub-indices from one extended record. -/
noncomputable def NIVEngine.compute_components (e : NIVEngine)
    (data : ExtendedEconomicData) : NIVComponents :=
  let thrust_input := THRUST_DG_WEIGHT * data.dg
                    + THRUST_DA_WEIGHT * data.da
                    - THRUST_DR_WEIGHT * data.dr
  let thrust := Real.tanh (thrust_input / 10)
  let efficiency := if data.base.gdp > 0 then
      (data.base.investment * R_D_MULTIPLIER) / data.base.gdp
    else 0
  let efficiency_squared := efficiency ^ 2
  let slack := 1 - data.base.capacity_util / 100
  let drag_spread := if data.base.yield_spread < 0 then |data.base.yield_spread| / 100 else 0
  let real_rate := data.base.fed_funds_rate - data.base.cpi_inflation
  let drag_real_rate := max real_rate 0 / 100
  let drag_volatility := data.sigma_r / 100
  let drag := DRAG_SPREAD_WEIGHT * drag_spread
            + DRAG_REAL_RATE_WEIGHT * drag_real_rate
            + DRAG_VOLATILITY_WEIGHT * drag_volatility
  { thrust := thrust
    efficiency := efficiency
    efficiency_squared := efficiency_squared
    slack := slack
    drag := drag
    drag_spread := drag_spread
    drag_real_rate := drag_real_rate
    drag_volatility := drag_volatility }

/-- Rust f64 clamp: clamp x lo hi, for lo ≤ hi and non-NaN x. -/
noncomputable def clamp (x lo hi : ℝ) : ℝ := max lo (min x hi)

/-- NIVEngine::compute_niv: the master formula with epsilon floor, the
1e-15 magnitude guard on the denominator, the 1000 rescale and the clamp. -/
noncomputable def NIVEngine.compute_niv (e : NIVEngine) (components : NIVComponents) : ℝ :=
  let numerator := components.thrust * components.efficiency_squared
  let denominator_base := components.slack + components.drag + e.epsilon
  let denominator := denominator_base ^ e.eta
  if |denominator| < 1e-15 then 0
  else
    let raw_niv := numerator / denominator
    clamp (raw_niv * 1000) (-100) 100

/-- Score formula as written in the spec: clamp(raw_score × 1000, −100, 100)
with raw_score = (thrust × efficiency²) / (slack + drag + ε)^η.  Stated from
the spec wording to compare against compute_niv. -/
noncomputable def specScore (eta epsilon : ℝ) (components : NIVComponents) : ℝ :=
  clamp ((components.thrust * components.efficiency_squared)
      / (components.slack + components.drag + epsilon) ^ eta * 1000) (-100) 100

/-- NIVEngine::compute_recession_probability: inverted sigmoid of the score. -/
noncomputable def NIVEngine.compute_recession_probability (e : NIVEngine)
    (niv_score : ℝ) : ℝ :=
  let prob := 1 / (1 + Real.exp (-niv_score / 10))
  1 - prob

/-- NIVEngine::calculate_single: components, score, probability, alert. -/
noncomputable def NIVEngine.calculate_single (e : NIVEngine)
    (data : ExtendedEconomicData) : NIVResult :=
  let components := e.compute_components data
  let niv_score := e.compute_niv components
  let recession_probability := e.compute_recession_probability niv_score
  let alert_level := AlertLevel.from_probability recession_probability
  { date := data.base.date
    niv_score := niv_score
    recession_probability := recession_probability
    components := components
    alert_level := alert_level }

/-- NIVEngine::apply_smoothing: trailing 12-month moving average; inputs
shorter than the window pass through, indices below SMOOTH_WINDOW - 1 pass
through, and the alert level is recomputed from the averaged probability. -/
noncomputable def NIVEngine.apply_smoothing (e : NIVEngine)
    (results : List NIVResult) : List NIVResult :=
  let n := results.length
  if n < SMOOTH_WINDOW then results
  else
    (List.range n).map (fun i =>
      if i < SMOOTH_WINDOW - 1 then results.getD i default
      else
        let window := (results.drop (i + 1 - SMOOTH_WINDOW)).take SMOOTH_WINDOW
        let avg_niv := (window.map NIVResult.niv_score).sum / (SMOOTH_WINDOW : ℝ)
        let avg_prob := (window.map NIVResult.recession_probability).sum / (SMOOTH_WINDOW : ℝ)
        let avg_thrust := (window.map (fun r => r.components.thrust)).sum / (SMOOTH_WINDOW : ℝ)
        let avg_efficiency := (window.map (fun r => r.components.efficiency)).sum / (SMOOTH_WINDOW : ℝ)
        let avg_efficiency_sq := (window.map (fun r => r.components.efficiency_squared)).sum / (SMOOTH_WINDOW : ℝ)
        let avg_slack := (window.map (fun r => r.components.slack)).sum / (SMOOTH_WINDOW : ℝ)
        let avg_drag := (window.map (fun r => r.components.drag)).sum / (SMOOTH_WINDOW : ℝ)
        let avg_drag_spread := (window.map (fun r => r.components.drag_spread)).sum / (SMOOTH_WINDOW : ℝ)
        let avg_drag_real := (window.map (fun r => r.components.drag_real_rate)).sum / (SMOOTH_WINDOW : ℝ)
        let avg_drag_vol := (window.map (fun r => r.components.drag_volatility)).sum / (SMOOTH_WINDOW : ℝ)
        { date := (results.getD i default).date
          niv_score := avg_niv
          recession_probability := avg_prob
          components :=
            { thrust := avg_thrust
              efficiency := avg_efficiency
              efficiency_squared := avg_efficiency_sq
              slack := avg_slack
              drag := avg_drag
              drag_spread := avg_drag_spread
              drag_real_rate := avg_drag_real
              drag_volatility := avg_drag_vol }
          alert_level := AlertLevel.from_probability avg_prob })

/-- NIVEngine::calculate_series: main entry point; fewer than 13 records
yields an empty sequence, otherwise derive, score and smooth. -/
noncomputable def NIVEngine.calculate_series (e : NIVEngine)
    (data : List EconomicData) : List NIVResult :=
  if data.length < 13 then []
  else
    let extended := e.compute_extended_data data
    let raw_results := extended.map e.calculate_single
    e.apply_smoothing raw_results

/-! ## Benchmark validation -/

/-- Validation check record (struct ValidationCheck).  The actual field in
niv.rs is a formatted display string carrying the measured number; the
formatting is display-only and is modelled as the empty string. -/
structure ValidationCheck where
  name : String
  expected : String
  actual : String
  passed : Bool

/-- Validation result (struct ValidationResult). -/
structure ValidationResult where
  passed : Bool
  checks : List ValidationCheck

/-- Filter predicate of check 1: months 3 to 6 of 2020. -/
def covidPred (r : NIVResult) : Bool :=
  decide (r.date.year = 2020 ∧ 3 ≤ r.date.month ∧ r.date.month ≤ 6)

/-- Filter predicate of check 2: year 2008. -/
def gfcPred (r : NIVResult) : Bool :=
  decide (r.date.year = 2008)

/-- Filter predicate of check 3: year 2017 or 2018. -/
def stablePred (r : NIVResult) : Bool :=
  decide (r.date.year = 2017 ∨ r.date.year = 2018)

/-- Fold of f64::max over a list seeded with NEG_INFINITY, as used by check 1.
On a nonempty list this is the list maximum; niv.rs only reads it on nonempty
lists, so the empty case (negative infinity, which ℝ lacks) is modelled as 0. -/
noncomputable def foldMaxNegInf (l : List ℝ) : ℝ :=
  match l with
  | [] => 0
  | x :: xs => xs.foldl max x

/-- NIVEngine::validate_against_benchmarks: three named checks, each skipped
when its window holds no data; passed starts true and is set false by every
included failing check (modelled as a fold over the included checks). -/
noncomputable def NIVEngine.validate_against_benchmarks (e : NIVEngine)
    (results : List NIVResult) : ValidationResult :=
  let covid_results := results.filter covidPred
  let covid_checks : List ValidationCheck :=
    if covid_results.isEmpty then []
    else
      [{ name := "2020 COVID Response"
         expected := "NIV > 20 (M2 explosion)"
         actual := ""
         passed := decide (foldMaxNegInf (covid_results.map NIVResult.niv_score) > 20) }]
  let gfc_results := results.filter gfcPred
  let gfc_checks : List ValidationCheck :=
    if gfc_results.isEmpty then []
    else
      [{ name := "2008 GFC Detection"
         expected := "Recession probability > 50%"
         actual := ""
         passed := decide ((gfc_results.map NIVResult.recession_probability).foldl max 0 > 0.50) }]
  let stable_results := results.filter stablePred
  let stable_checks : List ValidationCheck :=
    if stable_results.isEmpty then []
    else
      [{ name := "2017-2018 Stability"
         expected := "Average recession probability < 30%"
         actual := ""
         passed := decide ((stable_results.map NIVResult.recession_probability).sum
             / (stable_results.length : ℝ) < 0.30) }]
  let checks := covid_checks ++ gfc_checks ++ stable_checks
  { passed := checks.foldl (fun acc c => acc && c.passed) true, checks := checks }

/-! ## Spec-shaped definitions used to state the claims -/

/-- Trailing window of SMOOTH_WINDOW results ending at index i, written by
explicit indices as the spec describes it. -/
noncomputable def smoothWindow (rs : List NIVResult) (i : ℕ) : List NIVResult :=
  (List.range SMOOTH_WINDOW).map (fun j => rs.getD (i + 1 - SMOOTH_WINDOW + j) default)

/-- Result at index i after smoothing, as the spec describes it: every scalar
field is the arithmetic mean of that field over the trailing window, the date
is kept, and the alert level is recomputed from the averaged probability. -/
noncomputable def smoothedAt (rs : List NIVResult) (i : ℕ) : NIVResult :=
  let window := smoothWindow rs i
  { date := (rs.getD i default).date
    niv_score := (window.map NIVResult.niv_score).sum / (SMOOTH_WINDOW : ℝ)
    recession_probability := (window.map NIVResult.recession_probability).sum / (SMOOTH_WINDOW : ℝ)
    components :=
      { thrust := (window.map (fun r => r.components.thrust)).sum / (SMOOTH_WINDOW : ℝ)
        efficiency := (window.map (fun r => r.components.efficiency)).sum / (SMOOTH_WINDOW : ℝ)
        efficiency_squared := (window.map (fun r => r.components.efficiency_squared)).sum / (SMOOTH_WINDOW : ℝ)
        slack := (window.map (fun r => r.components.slack)).sum / (SMOOTH_WINDOW : ℝ)
        drag := (window.map (fun r => r.components.drag)).sum / (SMOOTH_WINDOW : ℝ)
        drag_spread := (window.map (fun r => r.components.drag_spread)).sum / (SMOOTH_WINDOW : ℝ)
        drag_real_rate := (window.map (fun r => r.components.drag_real_rate)).sum / (SMOOTH_WINDOW : ℝ)
        drag_volatility := (window.map (fun r => r.components.drag_volatility)).sum / (SMOOTH_WINDOW : ℝ) }
    alert_level := AlertLevel.from_probability
      ((window.map NIVResult.recession_probability).sum / (SMOOTH_WINDOW : ℝ)) }

/-! ## Concrete inputs for counterexamples and witnesses -/

/-- Components whose denominator base slack + drag + epsilon is exactly
10 ^ (-12), small enough to trip the 1e-15 magnitude guard in compute_niv
while the spec clamp formula yields 100. -/
noncomputable def guardComponents : NIVComponents :=
  { thrust := 1
    efficiency := 1
    efficiency_squared := 1
    slack := ((10 : ℝ) ^ (12 : ℕ))⁻¹ - EPSILON
    drag := 0
    drag_spread := 0
    drag_real_rate := 0
    drag_volatility := 0 }

/-- Components with zero slack and zero drag, the epsilon-floor edge case. -/
noncomputable def zeroSlackDragComponents : NIVComponents :=
  { thrust := 1
    efficiency := 1
    efficiency_squared := 1
    slack := 0
    drag := 0
    drag_spread := 0
    drag_real_rate := 0
    drag_volatility := 0 }

/-- Raw record whose only nonzero field is the policy rate. -/
noncomputable def mkRateData (r : ℝ) : EconomicData :=
  { date := ⟨2000, 1⟩
    investment := 0
    m2_supply := 0
    fed_funds_rate := r
    gdp := 0
    capacity_util := 0
    yield_spread := 0
    cpi_inflation := 0 }

/-- Thirteen records; the single eligible volatility window (indices 1 to 12)
holds eleven zero rates and one rate of 12, so the sample standard deviation
is sqrt 12 while the population standard deviation is sqrt 11. -/
noncomputable def rateSeries13 : List EconomicData :=
  [mkRateData 0, mkRateData 0, mkRateData 0, mkRateData 0, mkRateData 0, mkRateData 0,
   mkRateData 0, mkRateData 0, mkRateData 0, mkRateData 0, mkRateData 0, mkRateData 0,
   mkRateData 12]

/-- Twelve identical results, enough to reach the smoothing window. -/
def smoothInput12 : List NIVResult := List.replicate 12 default

/-! ## Helper lemmas -/

lemma tanh_lt_one (x : ℝ) : Real.tanh x < 1 := by
  rw [Real.tanh_eq_sinh_div_cosh, div_lt_one (Real.cosh_pos x)]
  exact Real.sinh_lt_cosh x

lemma neg_one_lt_tanh (x : ℝ) : -1 < Real.tanh x := by
  have h := tanh_lt_one (-x)
  rw [Real.tanh_neg] at h
  linarith

lemma rpow_ten_pow_inv (n m : ℕ) (h : 3 * n = 2 * m) :
    (((10 : ℝ) ^ n)⁻¹) ^ (3 / 2 : ℝ) = ((10 : ℝ) ^ m)⁻¹ := by
  have h10 : (0 : ℝ) ≤ 10 := by norm_num
  rw [← Real.rpow_natCast (10 : ℝ) n, ← Real.rpow_neg h10,
    ← Real.rpow_mul h10, ← Real.rpow_natCast (10 : ℝ) m, ← Real.rpow_neg h10]
  congr 1
  have hc : (3 : ℝ) * (n : ℝ) = 2 * (m : ℝ) := by exact_mod_cast h
  linarith

lemma eta_eq : ETA = (3 / 2 : ℝ) := by norm_num [ETA]

/-- With the default epsilon floor, any denominator base at least EPSILON
keeps the denominator magnitude at or above the 1e-15 guard threshold. -/
lemma guard_threshold_le (b : ℝ) (hb : EPSILON ≤ b) : (1e-15 : ℝ) ≤ |b ^ ETA| := by
  have hb0 : (0 : ℝ) < b := lt_of_lt_of_le (by norm_num [EPSILON]) hb
  have h1 : ((10 : ℝ) ^ (10 : ℕ))⁻¹ ≤ b := le_trans (by norm_num [EPSILON]) hb
  have h2 : (((10 : ℝ) ^ (10 : ℕ))⁻¹) ^ ETA ≤ b ^ ETA :=
    Real.rpow_le_rpow (by positivity) h1 (by norm_num [ETA])
  have h3 : (((10 : ℝ) ^ (10 : ℕ))⁻¹) ^ ETA = ((10 : ℝ) ^ (15 : ℕ))⁻¹ := by
    rw [eta_eq]
    exact rpow_ten_pow_inv 10 15 (by norm_num)
  rw [abs_of_pos (Real.rpow_pos_of_pos hb0 _)]
  calc (1e-15 : ℝ) = ((10 : ℝ) ^ (15 : ℕ))⁻¹ := by norm_num
    _ = (((10 : ℝ) ^ (10 : ℕ))⁻¹) ^ ETA := h3.symm
    _ ≤ b ^ ETA := h2

lemma compute_niv_eq (e : NIVEngine) (c : NIVComponents) :
    e.compute_niv c =
      if |(c.slack + c.drag + e.epsilon) ^ e.eta| < 1e-15 then 0
      else clamp ((c.thrust * c.efficiency_squared)
          / (c.slack + c.drag + e.epsilon) ^ e.eta * 1000) (-100) 100 := rfl

lemma compute_recession_probability_eq (e : NIVEngine) (s : ℝ) :
    e.compute_recession_probability s = 1 - 1 / (1 + Real.exp (-s / 10)) := rfl

lemma compute_niv_bounds (e : NIVEngine) (c : NIVComponents) :
    -100 ≤ e.compute_niv c ∧ e.compute_niv c ≤ 100 := by
  rw [compute_niv_eq]
  split_ifs
  · norm_num
  · unfold clamp
    exact ⟨le_max_left _ _, max_le (by norm_num) (min_le_right _ _)⟩

lemma recession_probability_bounds (e : NIVEngine) (s : ℝ) :
    0 ≤ e.compute_recession_probability s ∧ e.compute_recession_probability s ≤ 1 := by
  rw [compute_recession_probability_eq]
  have hp : (0 : ℝ) < 1 + Real.exp (-s / 10) := by positivity
  have hle : 1 / (1 + Real.exp (-s / 10)) ≤ 1 := by
    rw [div_le_one hp]
    have := Real.exp_pos (-s / 10)
    linarith
  have hpos : 0 ≤ 1 / (1 + Real.exp (-s / 10)) := by positivity
  constructor <;> linarith

lemma getD_range_map {α : Type} [Inhabited α] (f : ℕ → α) (n k : ℕ) (h : k < n) :
    ((List.range n).map f).getD k default = f k := by
  rw [List.getD_eq_getElem _ _ (by simpa using h)]
  simp [List.getElem_map, List.getElem_range]

lemma getD_map {α β : Type} [Inhabited α] [Inhabited β] (f : α → β) (l : List α) (k : ℕ)
    (h : k < l.length) :
    (l.map f).getD k default = f (l.getD k default) := by
  rw [List.getD_eq_getElem _ _ (by simpa using h), List.getD_eq_getElem _ _ h,
    List.getElem_map]

lemma drop_take_eq_range_map {α : Type} [Inhabited α] (l : List α) (a b : ℕ)
    (h : a + b ≤ l.length) :
    (l.drop a).take b = (List.range b).map (fun j => l.getD (a + j) default) := by
  apply List.ext_getElem
  · simp only [List.length_take, List.length_drop, List.length_map, List.length_range]
    omega
  · intro i h1 h2
    have hlan : a + i < l.length := by
      simp only [List.length_take, List.length_drop] at h1
      omega
    rw [List.getElem_take, List.getElem_drop, List.getElem_map, List.getElem_range,
      List.getD_eq_getElem _ _ hlan]

lemma map_map_lambda {α β γ : Type} (l : List α) (f : α → β) (g : β → γ) :
    (l.map f).map g = l.map (fun x => g (f x)) := by
  rw [List.map_map]
  rfl

lemma new_eta : NIVEngine.new.eta = ETA := rfl

lemma new_epsilon : NIVEngine.new.epsilon = EPSILON := rfl

lemma with_params_eta (a b : ℝ) : (NIVEngine.with_params a b).eta = a := rfl

lemma with_params_epsilon (a b : ℝ) : (NIVEngine.with_params a b).epsilon = b := rfl

lemma extended_getD_base (e : NIVEngine) (data : List EconomicData) (k : ℕ)
    (h : k < data.length - 12) :
    ((e.compute_extended_data data).getD k default).base = data.getD (k + 12) default := by
  unfold NIVEngine.compute_extended_data
  rw [getD_range_map _ _ _ h]

lemma extended_getD_dg (e : NIVEngine) (data : List EconomicData) (k : ℕ)
    (h : k < data.length - 12) :
    ((e.compute_extended_data data).getD k default).dg
      = (if (data.getD (k + 11) default).investment > 0
         then ((data.getD (k + 12) default).investment
              - (data.getD (k + 11) default).investment)
            / (data.getD (k + 11) default).investment * 100
         else 0) := by
  unfold NIVEngine.compute_extended_data
  rw [getD_range_map _ _ _ h]

lemma extended_getD_da (e : NIVEngine) (data : List EconomicData) (k : ℕ)
    (h : k < data.length - 12) :
    ((e.compute_extended_data data).getD k default).da
      = (if (data.getD k default).m2_supply > 0
         then ((data.getD (k + 12) default).m2_supply
              - (data.getD k default).m2_supply)
            / (data.getD k default).m2_supply * 100
         else 0) := by
  unfold NIVEngine.compute_extended_data
  rw [getD_range_map _ _ _ h]

lemma extended_getD_dr (e : NIVEngine) (data : List EconomicData) (k : ℕ)
    (h : k < data.length - 12) :
    ((e.compute_extended_data data).getD k default).dr
      = (data.getD (k + 12) default).fed_funds_rate
        - (data.getD (k + 11) default).fed_funds_rate := by
  unfold NIVEngine.compute_extended_data
  rw [getD_range_map _ _ _ h]

lemma extended_getD_sigma (e : NIVEngine) (data : List EconomicData) (k : ℕ)
    (h : k < data.length - 12) :
    ((e.compute_extended_data data).getD k default).sigma_r
      = std_dev (((data.drop (k + 1)).take 12).map EconomicData.fed_funds_rate) := by
  unfold NIVEngine.compute_extended_data
  rw [getD_range_map _ _ _ h]

lemma compute_extended_data_length (e : NIVEngine) (data : List EconomicData) :
    (e.compute_extended_data data).length = data.length - 12 := by
  unfold NIVEngine.compute_extended_data
  simp

lemma apply_smoothing_of_short (e : NIVEngine) (rs : List NIVResult)
    (h : rs.length < SMOOTH_WINDOW) : e.apply_smoothing rs = rs := by
  simp only [NIVEngine.apply_smoothing]
  rw [if_pos h]

lemma apply_smoothing_length (e : NIVEngine) (rs : List NIVResult) :
    (e.apply_smoothing rs).length = rs.length := by
  simp only [NIVEngine.apply_smoothing]
  split_ifs
  · rfl
  · simp

lemma apply_smoothing_getD_early (e : NIVEngine) (rs : List NIVResult)
    (h : ¬ rs.length < SMOOTH_WINDOW) (i : ℕ) (hi : i < rs.length)
    (hE : i < SMOOTH_WINDOW - 1) :
    (e.apply_smoothing rs).getD i default = rs.getD i default := by
  simp only [NIVEngine.apply_smoothing]
  rw [if_neg h, getD_range_map _ _ _ hi, if_pos hE]

lemma apply_smoothing_getD_late (e : NIVEngine) (rs : List NIVResult)
    (h : ¬ rs.length < SMOOTH_WINDOW) (i : ℕ) (hi : i < rs.length)
    (hL : SMOOTH_WINDOW - 1 ≤ i) :
    (e.apply_smoothing rs).getD i default = smoothedAt rs i := by
  simp only [NIVEngine.apply_smoothing]
  rw [if_neg h, getD_range_map _ _ _ hi, if_neg (not_lt.mpr hL)]
  rw [drop_take_eq_range_map rs (i + 1 - SMOOTH_WINDOW) SMOOTH_WINDOW
    (by simp only [SMOOTH_WINDOW] at hL ⊢; omega)]
  rfl

lemma apply_smoothing_getD_date (e : NIVEngine) (rs : List NIVResult) (i : ℕ)
    (hi : i < rs.length) :
    ((e.apply_smoothing rs).getD i default).date = (rs.getD i default).date := by
  by_cases h : rs.length < SMOOTH_WINDOW
  · rw [apply_smoothing_of_short e rs h]
  · by_cases hE : i < SMOOTH_WINDOW - 1
    · rw [apply_smoothing_getD_early e rs h i hi hE]
    · rw [apply_smoothing_getD_late e rs h i hi (not_lt.mp hE)]
      rfl

lemma foldl_and_eq_all (l : List ValidationCheck) (b : Bool) :
    l.foldl (fun acc c => acc && c.passed) b = (b && l.all (fun c => c.passed)) := by
  induction l generalizing b with
  | nil => simp
  | cons x xs ih => simp [List.foldl_cons, List.all_cons, ih, Bool.and_assoc]

/-! ## Claims -/

/-- C1 (amended): the score equals clamp(raw_score × 1000, −100, 100) with
raw_score = (thrust × efficiency²) / (slack + drag + ε)^η whenever the
denominator magnitude is at least 1e-15; when it is below 1e-15 the code
returns 0 instead of the clamp formula; with the default parameters the
exception never fires for components with slack + drag ≥ 0. -/
theorem compute_niv_spec_formula (eta epsilon : ℝ) (c : NIVComponents) :
    ((1e-15 : ℝ) ≤ |(c.slack + c.drag + epsilon) ^ eta| →
        (NIVEngine.with_params eta epsilon).compute_niv c = specScore eta epsilon c)
    ∧ (|(c.slack + c.drag + epsilon) ^ eta| < 1e-15 →
        (NIVEngine.with_params eta epsilon).compute_niv c = 0)
    ∧ (eta = ETA → epsilon = EPSILON → 0 ≤ c.slack + c.drag →
        (NIVEngine.with_params eta epsilon).compute_niv c = specScore eta epsilon c) := by
  refine ⟨?_, ?_, ?_⟩
  · intro h
    rw [compute_niv_eq]
    simp only [with_params_eta, with_params_epsilon]
    rw [if_neg (not_lt.mpr h)]
    rfl
  · intro h
    rw [compute_niv_eq]
    simp only [with_params_eta, with_params_epsilon]
    rw [if_pos h]
  · intro he hep hsd
    subst he; subst hep
    rw [compute_niv_eq]
    simp only [with_params_eta, with_params_epsilon]
    rw [if_neg (not_lt.mpr (guard_threshold_le _ (by linarith)))]
    rfl

/-- C1 witness: at the zero-slack zero-drag components with the default
parameters, the score equals the spec clamp formula. -/
theorem compute_niv_spec_formula_witness :
    (NIVEngine.with_params ETA EPSILON).compute_niv zeroSlackDragComponents
      = specScore ETA EPSILON zeroSlackDragComponents :=
  (compute_niv_spec_formula ETA EPSILON zeroSlackDragComponents).2.2 rfl rfl
    (by norm_num [zeroSlackDragComponents])

/-- C1 counterexample: for the Components value guardComponents (denominator
base 10^(-12)), the code returns 0 while the spec clamp formula yields 100,
so the score does not always equal clamp(raw_score × 1000, −100, 100). -/
theorem niv_guard_counterexample :
    NIVEngine.new.compute_niv guardComponents ≠ specScore ETA EPSILON guardComponents := by
  have hbase : guardComponents.slack + guardComponents.drag + EPSILON
      = ((10 : ℝ) ^ (12 : ℕ))⁻¹ := by
    show ((10 : ℝ) ^ (12 : ℕ))⁻¹ - EPSILON + 0 + EPSILON = ((10 : ℝ) ^ (12 : ℕ))⁻¹
    ring
  have hden : (guardComponents.slack + guardComponents.drag + EPSILON) ^ ETA
      = ((10 : ℝ) ^ (18 : ℕ))⁻¹ := by
    rw [hbase, eta_eq]
    exact rpow_ten_pow_inv 12 18 (by norm_num)
  have hlhs : NIVEngine.new.compute_niv guardComponents = 0 := by
    rw [compute_niv_eq]
    simp only [new_eta, new_epsilon]
    rw [hden, if_pos (by rw [abs_of_pos (by positivity)]; norm_num)]
  have hrhs : specScore ETA EPSILON guardComponents = 100 := by
    unfold specScore
    have h1 : guardComponents.thrust = 1 := rfl
    have h2 : guardComponents.efficiency_squared = 1 := rfl
    rw [h1, h2, hden]
    unfold clamp
    rw [min_eq_right (by norm_num), max_eq_right (by norm_num)]
  rw [hlhs, hrhs]
  norm_num

/-- C3: for valid components (nonnegative slack and drag) the score stays in
[−100, 100] and the probability in [0, 1]; with slack = 0 and drag = 0 the
epsilon floor keeps the denominator nonzero (no division error) and the score
is the ordinary clamp formula. -/
theorem score_and_probability_invariants (c : NIVComponents)
    (hslack : 0 ≤ c.slack) (hdrag : 0 ≤ c.drag) :
    (-100 ≤ NIVEngine.new.compute_niv c ∧ NIVEngine.new.compute_niv c ≤ 100)
    ∧ (0 ≤ NIVEngine.new.compute_recession_probability (NIVEngine.new.compute_niv c)
        ∧ NIVEngine.new.compute_recession_probability (NIVEngine.new.compute_niv c) ≤ 1)
    ∧ (c.slack = 0 → c.drag = 0 →
        (c.slack + c.drag + EPSILON) ^ ETA ≠ 0
        ∧ NIVEngine.new.compute_niv c = specScore ETA EPSILON c) := by
  refine ⟨compute_niv_bounds _ _, recession_probability_bounds _ _, ?_⟩
  intro h1 h2
  have hpos : (0 : ℝ) < (c.slack + c.drag + EPSILON) ^ ETA := by
    apply Real.rpow_pos_of_pos
    rw [h1, h2]
    norm_num [EPSILON]
  refine ⟨ne_of_gt hpos, ?_⟩
  rw [compute_niv_eq]
  simp only [new_eta, new_epsilon]
  rw [if_neg (not_lt.mpr (guard_threshold_le _ (by rw [h1, h2]; norm_num)))]
  rfl

/-- C3 witness: the invariants at the zero-slack zero-drag components. -/
theorem score_and_probability_invariants_witness :
    -100 ≤ NIVEngine.new.compute_niv zeroSlackDragComponents
    ∧ NIVEngine.new.compute_niv zeroSlackDragComponents
        = specScore ETA EPSILON zeroSlackDragComponents :=
  ⟨(score_and_probability_invariants zeroSlackDragComponents
      (by norm_num [zeroSlackDragComponents]) (by norm_num [zeroSlackDragComponents])).1.1,
   ((score_and_probability_invariants zeroSlackDragComponents
      (by norm_num [zeroSlackDragComponents]) (by norm_num [zeroSlackDragComponents])).2.2
      rfl rfl).2⟩

/-- C2: for every score s, the recession probability equals
1 − 1/(1 + exp(−s/10)); a score of 0 yields exactly 1/2, and the mapping is
strictly decreasing, so more negative scores push the probability toward 1
and more positive scores push it toward 0. -/
theorem recession_probability_sigmoid (e : NIVEngine) (s t : ℝ) :
    e.compute_recession_probability s = 1 - 1 / (1 + Real.exp (-s / 10))
    ∧ e.compute_recession_probability 0 = 1 / 2
    ∧ (s < t → e.compute_recession_probability t < e.compute_recession_probability s) := by
  refine ⟨rfl, ?_, ?_⟩
  · rw [compute_recession_probability_eq]
    norm_num [Real.exp_zero]
  · intro hst
    rw [compute_recession_probability_eq, compute_recession_probability_eq]
    have hmono : Real.exp (-t / 10) < Real.exp (-s / 10) :=
      Real.exp_lt_exp.mpr (by linarith)
    have hpt : (0 : ℝ) < 1 + Real.exp (-t / 10) := by positivity
    have hdiv : 1 / (1 + Real.exp (-s / 10)) < 1 / (1 + Real.exp (-t / 10)) :=
      one_div_lt_one_div_of_lt hpt (by linarith)
    linarith

/-- C2 witness: a larger score yields a strictly smaller probability;
instantiated at scores 0 and 1 for the default engine. -/
theorem recession_probability_sigmoid_witness :
    NIVEngine.new.compute_recession_probability 1
      < NIVEngine.new.compute_recession_probability 0 :=
  (recession_probability_sigmoid NIVEngine.new 0 1).2.2 (by norm_num)

/-- C8: the alert tag is normal below 0.30, elevated on [0.30, 0.50),
warning on [0.50, 0.70), critical at or above 0.70, and its ordinal rank is
a monotone non-decreasing step function of the probability. -/
theorem alert_level_thresholds (p q : ℝ) :
    (p < 0.30 → AlertLevel.from_probability p = AlertLevel.Normal)
    ∧ (0.30 ≤ p → p < 0.50 → AlertLevel.from_probability p = AlertLevel.Elevated)
    ∧ (0.50 ≤ p → p < 0.70 → AlertLevel.from_probability p = AlertLevel.Warning)
    ∧ (0.70 ≤ p → AlertLevel.from_probability p = AlertLevel.Critical)
    ∧ (p ≤ q →
        (AlertLevel.from_probability p).rank ≤ (AlertLevel.from_probability q).rank) := by
  refine ⟨?_, ?_, ?_, ?_, ?_⟩
  · intro h
    unfold AlertLevel.from_probability
    rw [if_pos h]
  · intro h1 h2
    unfold AlertLevel.from_probability
    rw [if_neg (not_lt.mpr h1), if_pos h2]
  · intro h1 h2
    unfold AlertLevel.from_probability
    rw [if_neg (not_lt.mpr (by linarith)), if_neg (not_lt.mpr (by linarith)), if_pos h2]
  · intro h
    unfold AlertLevel.from_probability
    rw [if_neg (not_lt.mpr (by linarith)), if_neg (not_lt.mpr (by linarith)),
      if_neg (not_lt.mpr (by linarith))]
  · intro hpq
    unfold AlertLevel.from_probability
    split_ifs <;> simp [AlertLevel.rank] <;> linarith

/-- C8 witness: the four tags at 0.2, 0.4, 0.6, 0.8 and one monotonicity
instance, from the threshold theorem. -/
theorem alert_level_thresholds_witness :
    AlertLevel.from_probability 0.2 = AlertLevel.Normal
    ∧ AlertLevel.from_probability 0.4 = AlertLevel.Elevated
    ∧ AlertLevel.from_probability 0.6 = AlertLevel.Warning
    ∧ AlertLevel.from_probability 0.8 = AlertLevel.Critical
    ∧ (AlertLevel.from_probability 0.2).rank ≤ (AlertLevel.from_probability 0.8).rank :=
  ⟨(alert_level_thresholds 0.2 0.8).1 (by norm_num),
   (alert_level_thresholds 0.4 0.8).2.1 (by norm_num) (by norm_num),
   (alert_level_thresholds 0.6 0.8).2.2.1 (by norm_num) (by norm_num),
   (alert_level_thresholds 0.8 0.2).2.2.2.1 (by norm_num),
   (alert_level_thresholds 0.2 0.8).2.2.2.2 (by norm_num)⟩

/-- C10: the thrust component is the image of a real under tanh, hence lies
in [−1, 1]; consequently the master-formula numerator
thrust × efficiency_squared is bounded in magnitude by efficiency_squared. -/
theorem thrust_bounded (e : NIVEngine) (d : ExtendedEconomicData) :
    (-1 ≤ (e.compute_components d).thrust ∧ (e.compute_components d).thrust ≤ 1)
    ∧ |(e.compute_components d).thrust * (e.compute_components d).efficiency_squared|
        ≤ (e.compute_components d).efficiency_squared := by
  have hthrust : (e.compute_components d).thrust
      = Real.tanh ((THRUST_DG_WEIGHT * d.dg + THRUST_DA_WEIGHT * d.da
          - THRUST_DR_WEIGHT * d.dr) / 10) := rfl
  have hsq : (e.compute_components d).efficiency_squared
      = (e.compute_components d).efficiency ^ 2 := rfl
  have h1 : -1 ≤ (e.compute_components d).thrust := by
    rw [hthrust]; exact le_of_lt (neg_one_lt_tanh _)
  have h2 : (e.compute_components d).thrust ≤ 1 := by
    rw [hthrust]; exact le_of_lt (tanh_lt_one _)
  refine ⟨⟨h1, h2⟩, ?_⟩
  have habs : |(e.compute_components d).thrust| ≤ 1 := abs_le.mpr ⟨h1, h2⟩
  have hnn : 0 ≤ (e.compute_components d).efficiency_squared := by
    rw [hsq]; exact sq_nonneg _
  calc |(e.compute_components d).thrust * (e.compute_components d).efficiency_squared|
      = |(e.compute_components d).thrust| * |(e.compute_components d).efficiency_squared| :=
        abs_mul _ _
    _ = |(e.compute_components d).thrust| * (e.compute_components d).efficiency_squared := by
        rw [abs_of_nonneg hnn]
    _ ≤ 1 * (e.compute_components d).efficiency_squared :=
        mul_le_mul_of_nonneg_right habs hnn
    _ = (e.compute_components d).efficiency_squared := one_mul _

/-- C6: for every input of at least 13 records and eligible index i, the
derived features are dG = (investment[i] − investment[i−1]) / investment[i−1]
× 100 guarded to 0 when the prior level is not positive, dA the analogous
12-month money-stock change guarded the same way, and dr = rate[i] −
rate[i−1]; the guards make every branch total, so no division raises. -/
theorem derived_feature_formulas (e : NIVEngine) (data : List EconomicData) (i : ℕ)
    (h12 : 12 ≤ i) (hlen : i < data.length) :
    ((e.compute_extended_data data).getD (i - 12) default).dg
      = (if (data.getD (i - 1) default).investment > 0
         then ((data.getD i default).investment - (data.getD (i - 1) default).investment)
            / (data.getD (i - 1) default).investment * 100
         else 0)
    ∧ ((e.compute_extended_data data).getD (i - 12) default).da
      = (if (data.getD (i - 12) default).m2_supply > 0
         then ((data.getD i default).m2_supply - (data.getD (i - 12) default).m2_supply)
            / (data.getD (i - 12) default).m2_supply * 100
         else 0)
    ∧ ((e.compute_extended_data data).getD (i - 12) default).dr
      = (data.getD i default).fed_funds_rate - (data.getD (i - 1) default).fed_funds_rate := by
  have hk : i - 12 < data.length - 12 := by omega
  have e1 : i - 12 + 11 = i - 1 := by omega
  have e2 : i - 12 + 12 = i := by omega
  refine ⟨?_, ?_, ?_⟩
  · rw [extended_getD_dg e data _ hk, e1, e2]
  · rw [extended_getD_da e data _ hk, e2]
  · rw [extended_getD_dr e data _ hk, e1, e2]

/-- C6 witness: the rate-delta formula at index 12 of the concrete 13-record
series. -/
theorem derived_feature_formulas_witness :
    ((NIVEngine.new.compute_extended_data rateSeries13).getD (12 - 12) default).dr
      = (rateSeries13.getD 12 default).fed_funds_rate
        - (rateSeries13.getD (12 - 1) default).fed_funds_rate :=
  (derived_feature_formulas NIVEngine.new rateSeries13 12 (le_refl 12)
    (by norm_num [rateSeries13])).2.2

/-- C4 (amended): the rolling volatility sigma_r at eligible index i is the
Bessel-corrected sample standard deviation (divisor 11) of the policy rates
at indices i−11 through i, a fixed 12-element window — not the population
standard deviation (divisor 12). -/
theorem sigma_r_sample_stdDev (e : NIVEngine) (data : List EconomicData) (i : ℕ)
    (h12 : 12 ≤ i) (hlen : i < data.length) :
    ((e.compute_extended_data data).getD (i - 12) default).sigma_r
      = Real.sqrt ((((List.range 12).map (fun j =>
            ((data.getD (i - 11 + j) default).fed_funds_rate
              - (((List.range 12).map (fun j =>
                  (data.getD (i - 11 + j) default).fed_funds_rate)).sum) / 12) ^ 2)).sum)
          / 11) := by
  have hk : i - 12 < data.length - 12 := by omega
  rw [extended_getD_sigma e data _ hk]
  have e1 : i - 12 + 1 = i - 11 := by omega
  rw [e1]
  rw [drop_take_eq_range_map data (i - 11) 12 (by omega)]
  rw [map_map_lambda]
  unfold std_dev listMean
  rw [map_map_lambda]
  simp only [List.length_map, List.length_range]
  norm_num

/-- C4 witness: the sample standard deviation formula at index 12 of the
concrete 13-record series. -/
theorem sigma_r_sample_stdDev_witness :
    ((NIVEngine.new.compute_extended_data rateSeries13).getD (12 - 12) default).sigma_r
      = Real.sqrt ((((List.range 12).map (fun j =>
            ((rateSeries13.getD (12 - 11 + j) default).fed_funds_rate
              - (((List.range 12).map (fun j =>
                  (rateSeries13.getD (12 - 11 + j) default).fed_funds_rate)).sum) / 12) ^ 2)).sum)
          / 11) :=
  sigma_r_sample_stdDev NIVEngine.new rateSeries13 12 (le_refl 12)
    (by norm_num [rateSeries13])

/-- C4 counterexample: on the concrete 13-record series whose eligible window
holds eleven zero rates and one rate of 12, sigma_r is sqrt 12 (sample) while
the population standard deviation of the same window is sqrt 11, so the claim
that sigma_r is the population standard deviation fails. -/
theorem sigma_r_population_counterexample :
    ((NIVEngine.new.compute_extended_data rateSeries13).getD 0 default).sigma_r
      ≠ population_std_dev
          (((rateSeries13.drop 1).take 12).map EconomicData.fed_funds_rate) := by
  have hwin : ((rateSeries13.drop 1).take 12).map EconomicData.fed_funds_rate
      = [0, 0, 0, 0, 0, 0, 0, 0, 0, 0, 0, (12 : ℝ)] := rfl
  have hl : ((NIVEngine.new.compute_extended_data rateSeries13).getD 0 default).sigma_r
      = std_dev [0, 0, 0, 0, 0, 0, 0, 0, 0, 0, 0, (12 : ℝ)] := by
    rw [extended_getD_sigma NIVEngine.new rateSeries13 0 (by norm_num [rateSeries13])]
    rfl
  rw [hl, hwin]
  have h1 : std_dev [0, 0, 0, 0, 0, 0, 0, 0, 0, 0, 0, (12 : ℝ)] = Real.sqrt 12 := by
    unfold std_dev listMean
    norm_num
  have h2 : population_std_dev [0, 0, 0, 0, 0, 0, 0, 0, 0, 0, 0, (12 : ℝ)] = Real.sqrt 11 := by
    unfold population_std_dev listMean
    norm_num
  rw [h1, h2]
  exact ne_of_gt (Real.sqrt_lt_sqrt (by norm_num) (by norm_num))

/-- C5: the Smoother returns a same-length sequence; inputs shorter than the
window pass through unchanged; with at least a full window, indices below
W − 1 pass through and every later index is replaced by the componentwise
trailing-window mean with the alert tag recomputed from the smoothed
probability (smoothedAt). -/
theorem apply_smoothing_spec (e : NIVEngine) (rs : List NIVResult) :
    (e.apply_smoothing rs).length = rs.length
    ∧ (rs.length < SMOOTH_WINDOW → e.apply_smoothing rs = rs)
    ∧ (SMOOTH_WINDOW ≤ rs.length → ∀ i, i < rs.length →
        (i < SMOOTH_WINDOW - 1 →
          (e.apply_smoothing rs).getD i default = rs.getD i default)
        ∧ (SMOOTH_WINDOW - 1 ≤ i →
          (e.apply_smoothing rs).getD i default = smoothedAt rs i)) := by
  refine ⟨apply_smoothing_length e rs, fun h => apply_smoothing_of_short e rs h, ?_⟩
  intro hlen i hi
  exact ⟨fun hE => apply_smoothing_getD_early e rs (not_lt.mpr hlen) i hi hE,
         fun hL => apply_smoothing_getD_late e rs (not_lt.mpr hlen) i hi hL⟩

/-- C5 witness: on twelve concrete results, index 11 becomes the trailing
window average result. -/
theorem apply_smoothing_spec_witness :
    (NIVEngine.new.apply_smoothing smoothInput12).getD 11 default
      = smoothedAt smoothInput12 11 :=
  ((apply_smoothing_spec NIVEngine.new smoothInput12).2.2
      (by norm_num [smoothInput12, SMOOTH_WINDOW]) 11
      (by norm_num [smoothInput12])).2
    (by norm_num [SMOOTH_WINDOW])

/-- C7: fewer than 13 input records yields an empty output sequence, not an
error; with at least 13 records the output has exactly one result per index
from 12 to len − 1 (output length = input length − 12, and the result at
offset k carries the date of input record k + 12). -/
theorem calculate_series_spec (e : NIVEngine) (data : List EconomicData) :
    (data.length < 13 → e.calculate_series data = [])
    ∧ (13 ≤ data.length →
        (e.calculate_series data).length = data.length - 12
        ∧ ∀ k, k < data.length - 12 →
            ((e.calculate_series data).getD k default).date
              = (data.getD (k + 12) default).date) := by
  constructor
  · intro h
    simp only [NIVEngine.calculate_series]
    rw [if_pos h]
  · intro h
    have hif : e.calculate_series data
        = e.apply_smoothing ((e.compute_extended_data data).map e.calculate_single) := by
      simp only [NIVEngine.calculate_series]
      rw [if_neg (not_lt.mpr h)]
    constructor
    · rw [hif, apply_smoothing_length]
      simp [compute_extended_data_length]
    · intro k hk
      have hklen : k < ((e.compute_extended_data data).map e.calculate_single).length := by
        simpa [compute_extended_data_length] using hk
      rw [hif, apply_smoothing_getD_date e _ k hklen,
        getD_map _ _ _ (by simpa [compute_extended_data_length] using hk)]
      show ((e.compute_extended_data data).getD k default).base.date = _
      rw [extended_getD_base e data k hk]

/-- C7 witness: the concrete 13-record series yields exactly one result. -/
theorem calculate_series_spec_witness :
    (NIVEngine.new.calculate_series rateSeries13).length = rateSeries13.length - 12 :=
  ((calculate_series_spec NIVEngine.new rateSeries13).2 (by norm_num [rateSeries13])).1

/-- C9: the overall pass flag equals the AND of the pass flags of the checks
that had applicable data, and a check whose target window holds no months of
the sequence is omitted from the produced checks rather than failed; the
validator is a total function reporting failures only as data. -/
theorem validator_omits_empty_windows (e : NIVEngine) (rs : List NIVResult) :
    ((e.validate_against_benchmarks rs).passed
        = (e.validate_against_benchmarks rs).checks.all (fun c => c.passed))
    ∧ (rs.filter covidPred = [] →
        ∀ c ∈ (e.validate_against_benchmarks rs).checks, c.name ≠ "2020 COVID Response")
    ∧ (rs.filter gfcPred = [] →
        ∀ c ∈ (e.validate_against_benchmarks rs).checks, c.name ≠ "2008 GFC Detection")
    ∧ (rs.filter stablePred = [] →
        ∀ c ∈ (e.validate_against_benchmarks rs).checks, c.name ≠ "2017-2018 Stability")
    ∧ (rs.filter covidPred ≠ [] →
        "2020 COVID Response" ∈ (e.validate_against_benchmarks rs).checks.map
          (fun c => c.name))
    ∧ (rs.filter gfcPred ≠ [] →
        "2008 GFC Detection" ∈ (e.validate_against_benchmarks rs).checks.map
          (fun c => c.name))
    ∧ (rs.filter stablePred ≠ [] →
        "2017-2018 Stability" ∈ (e.validate_against_benchmarks rs).checks.map
          (fun c => c.name)) := by
  simp only [NIVEngine.validate_against_benchmarks]
  by_cases h1 : (rs.filter covidPred).isEmpty <;>
    by_cases h2 : (rs.filter gfcPred).isEmpty <;>
      by_cases h3 : (rs.filter stablePred).isEmpty <;>
        simp_all [foldl_and_eq_all, List.isEmpty_iff, Bool.and_assoc]

/-- C9 witness: on the empty result sequence the overall flag is the AND of
the included checks (all three omitted). -/
theorem validator_omits_empty_windows_witness :
    (NIVEngine.new.validate_against_benchmarks []).passed
      = (NIVEngine.new.validate_against_benchmarks []).checks.all (fun c => c.passed) :=
  (validator_omits_empty_windows NIVEngine.new []).1

end NIV
